import Mathlib

/-!
Verification of `rainforest_server.py`, a single-file HTTP search gateway:
it resolves an effective query, calls the Rainforest search API
(`search_rainforest`), normalizes the raw JSON result items, and renders an
HTML results page (`render_html`).

The Python code is shallowly embedded below.  JSON values (the output of
`json.loads`) are modelled by the inductive `JVal`; Python exceptions are
modelled by `Except String`; the outbound HTTP fetch is modelled by a
function argument `fetch` from the request parameters to the upstream
response, and the outbound calls actually issued are returned alongside the
outcome so that "zero network calls" is expressible.
-/

set_option maxHeartbeats 1000000

namespace Rainforest

/-- JSON values as produced by Python's `json.loads`: `None`, `bool`, `int`,
`float` (modelled as rationals), `str`, `list`, `dict`.  A `dict` is a field
list; `json.loads` never produces duplicate keys (later duplicates in the
source text overwrite earlier ones), so association-list lookup is faithful. -/
inductive JVal where
  | null
  | bool (b : Bool)
  | int (n : Int)
  | float (q : Rat)
  | str (s : String)
  | arr (xs : List JVal)
  | obj (fs : List (String × JVal))

/-- Python truthiness (`if v:`): `None`, `False`, `0`, `0.0`, `""`, `[]` and
`{}` are falsy, everything else is truthy. -/
def pyTruthy : JVal → Bool
  | .null => false
  | .bool b => b
  | .int n => n != 0
  | .float q => q != 0
  | .str s => s != ""
  | .arr xs => !xs.isEmpty
  | .obj fs => !fs.isEmpty

/-- Python `a or b` on values (no side effects here, so eager evaluation of
`b` is equivalent to Python's short-circuit). -/
def pyOrV (a b : JVal) : JVal := if pyTruthy a then a else b

/-- `d.get(k)` on a dict's field list: the value, or `None` when the key is
absent.  (`d[k]` is only used in the source at points where `d.get(k)` was
already observed non-`None`, so it coincides with this.) -/
def dictGet (fs : List (String × JVal)) (k : String) : JVal :=
  (fs.lookup k).getD .null

/-- Decimal digits of a natural number, most significant first (fuelled
recursion on the number of divisions by 10). -/
def natDigitsF : Nat → Nat → List Char
  | 0, _ => []
  | f+1, n => if n < 10 then [Nat.digitChar n] else natDigitsF f (n / 10) ++ [Nat.digitChar (n % 10)]

/-- Decimal digits of a natural number, most significant first. -/
def natDigits (n : Nat) : List Char := natDigitsF (n + 1) n

/-- Decimal rendering of an integer, as Python's `str(int)`. -/
def intChars (n : Int) : List Char :=
  if n < 0 then '-' :: natDigits n.natAbs else natDigits n.natAbs

/-- Python `str(n)` for an `int`. -/
def intStr (n : Int) : String := ⟨intChars n⟩

/-- Python `str(x)` for a `float`, approximated on the rational model: exact
binary floating point and its shortest-digits repr are not modelled (no claim
depends on the rendered digits of a float). -/
def ratStr (q : Rat) : String :=
  if q.den == 1 then intStr q.num ++ ".0" else intStr q.num ++ "/" ++ ⟨natDigits q.den⟩

mutual
/-- Python `str(v)`.  For containers this is `repr`, which quotes strings;
the quote/backslash escaping Python applies inside `repr` of a string is not
modelled (no claim depends on it). -/
def pyStr : JVal → String
  | .null => "None"
  | .bool b => if b then "True" else "False"
  | .int n => intStr n
  | .float q => ratStr q
  | .str s => s
  | .arr xs => "[" ++ reprList xs ++ "]"
  | .obj fs => "\x7b" ++ reprFields fs ++ "\x7d"

/-- Python `repr(v)`, used for elements of containers under `str`. -/
def pyReprV : JVal → String
  | .null => "None"
  | .bool b => if b then "True" else "False"
  | .int n => intStr n
  | .float q => ratStr q
  | .str s => "\x27" ++ s ++ "\x27"
  | .arr xs => "[" ++ reprList xs ++ "]"
  | .obj fs => "\x7b" ++ reprFields fs ++ "\x7d"

/-- Comma-separated `repr`s of list elements. -/
def reprList : List JVal → String
  | [] => ""
  | [x] => pyReprV x
  | x :: xs => pyReprV x ++ ", " ++ reprList xs

/-- Comma-separated `'key': repr(value)` renderings of dict fields. -/
def reprFields : List (String × JVal) → String
  | [] => ""
  | [(k, v)] => "\x27" ++ k ++ "\x27: " ++ pyReprV v
  | (k, v) :: fs => "\x27" ++ k ++ "\x27: " ++ pyReprV v ++ ", " ++ reprFields fs
end

/-- `isinstance(v, (int, float))` — Python `bool` is a subclass of `int`,
so booleans count. -/
def pyIsNum : JVal → Bool
  | .int _ => true
  | .float _ => true
  | .bool _ => true
  | _ => false

/-- `isinstance(v, int)` — Python `bool` is a subclass of `int`. -/
def pyIsInt : JVal → Bool
  | .int _ => true
  | .bool _ => true
  | _ => false

/-- `format(x, ".1f")` on the rational float model: one digit after the
point.  (Python rounds the underlying binary float half-to-even; here
half-up on the rational — the tie behaviour is a floating-point detail no
claim depends on.) -/
def fmt1Q (q : Rat) : String :=
  let m : Int := Int.fdiv (20 * q.num + (q.den : Int)) (2 * (q.den : Int))
  ⟨(if m < 0 then ['-'] else []) ++ natDigits (m.natAbs / 10) ++ ['.'] ++ natDigits (m.natAbs % 10)⟩

/-- `f"{rating:.1f}"` for the values admitted by the isinstance guard
(ints format as `n.0`, bools as their int value). -/
def pyFmt1 : JVal → String
  | .int n => ⟨intChars n ++ ['.', '0']⟩
  | .float q => fmt1Q q
  | .bool b => if b then "1.0" else "0.0"
  | _ => ""

/-- Insert `,` after every group of three digits of a reversed digit list
(fuelled recursion). -/
def commaRevF : Nat → List Char → List Char
  | 0, ds => ds
  | f+1, ds => if ds.length ≤ 3 then ds else ds.take 3 ++ ',' :: commaRevF f (ds.drop 3)

/-- Thousands grouping of a digit list, most significant first. -/
def commaGroup (ds : List Char) : List Char := (commaRevF ds.length ds.reverse).reverse

/-- `f"{ratings_total:,}"` for the values admitted by the isinstance guard
(bools format via their int value). -/
def pyComma : JVal → String
  | .int n => ⟨(if n < 0 then ['-'] else []) ++ commaGroup (natDigits n.natAbs)⟩
  | .bool b => if b then "1" else "0"
  | _ => ""

/-- A cleaned result record, one entry of the `cleaned` list built by
`search_rainforest`.  The Python code stores whatever values the raw item
held (not necessarily strings), so the fields are `JVal`. -/
structure Item where
  title : JVal
  asin : JVal
  link : JVal
  image : JVal
  price : JVal
  rating : JVal
  ratings_total : JVal

/-- The value returned by `search_rainforest`: a dict with a `results` list
and a nullable `error` string. -/
structure Outcome where
  results : List Item
  error : Option String

/-- Process-wide configuration read from the environment at startup:
`RAINFOREST_API_KEY` (may be unset) and `AMAZON_DOMAIN`. -/
structure Config where
  apiKey : Option String
  domain : String

/-- Truthiness of `RAINFOREST_API_KEY` as tested by `if not RAINFOREST_API_KEY:`
(unset or empty string are both falsy). -/
def pyTruthyOpt : Option String → Bool
  | none => false
  | some s => s != ""

/-- The upstream response to the one outbound fetch, as observed by the
`try` block: an `HTTPError` (non-2xx status), a `URLError` (network
failure), any other exception raised while fetching/reading/decoding/parsing
(e.g. malformed JSON), or a successfully parsed JSON value. -/
inductive Upstream where
  | httpFailure (code : Int) (reason : String)
  | netFailure (reason : String)
  | otherFailure (msg : String)
  | json (data : JVal)

/-- The parameter dict of the outbound request, in the source's insertion
order (percent-encoding by `urlencode` is stdlib and is not modelled). -/
def requestParams (cfg : Config) (query : String) : List (String × String) :=
  [("api_key", cfg.apiKey.getD ""), ("type", "search"),
   ("amazon_domain", cfg.domain), ("search_term", query)]

/-- One iteration of the cleaning loop in `search_rainforest` (lines 80-103):
field extraction with truthiness defaults, link synthesis from the asin, and
the two-shape price resolution.  `Except.error` marks exactly the points
where the Python raises (`.get` on a non-dict `prices[0]`, or a non-dict
item). -/
def normalizeItem : JVal → Except String Item
  | .obj fs =>
    let title := pyOrV (dictGet fs "title") (.str "(no title)")
    let asin := pyOrV (dictGet fs "asin") (.str "")
    let link := pyOrV (dictGet fs "link")
      (if pyTruthy asin then .str ("https://www.amazon.com/dp/" ++ pyStr asin) else .str "")
    let img := pyOrV (dictGet fs "image") (.str "")
    -- price can be at item.price or item.prices[0]
    let pr1 : JVal :=
      match dictGet fs "price" with
      | .obj pfs => dictGet pfs "raw"
      | _ => .null
    match (if pyTruthy pr1 then Except.ok pr1
           else match dictGet fs "prices" with
                | .arr (x :: _) =>
                  match x with
                  | .obj qfs => Except.ok (dictGet qfs "raw")
                  | _ => Except.error "AttributeError: get"
                | _ => Except.ok pr1) with
    | .error e => .error e
    | .ok priceRaw =>
      .ok ⟨title, asin, link, img, pyOrV priceRaw (.str ""),
           dictGet fs "rating", dictGet fs "ratings_total"⟩
  | _ => .error "AttributeError: get"

/-- The `for item in raw_results[:max_items]` loop body applied in order,
collecting the cleaned records (an exception aborts the whole request). -/
def cleanItems : List JVal → Except String (List Item)
  | [] => .ok []
  | x :: xs =>
    match normalizeItem x with
    | .error e => .error e
    | .ok i =>
      match cleanItems xs with
      | .error e => .error e
      | .ok rest => .ok (i :: rest)

/-- `raw_results[:max_items]` followed by iteration over the slice: lists
slice to their prefix, strings slice to a string iterated character by
character, and any other value raises `TypeError`. -/
def pySlice : JVal → Nat → Except String (List JVal)
  | .arr xs, n => .ok (xs.take n)
  | .str s, n => .ok ((s.data.take n).map fun c => .str ⟨[c]⟩)
  | _, _ => .error "TypeError: unsliceable"

/-- `search_rainforest(query, max_items)` (lines 51-105).  The Python tests
`if not RAINFOREST_API_KEY: return ...` first; here that is the `else`
branch of the same condition.  `fetch` stands for `urlopen` + read + decode
+ `json.loads` on the built request; the second component of the result
records the outbound calls issued.  `data.get("search_results", [])` sits
outside the `try`, so a non-dict `data` raises (`Except.error`). -/
def search_rainforest (cfg : Config) (query : String)
    (fetch : List (String × String) → Upstream) (max_items : Nat := 10) :
    Except String (Outcome × List (List (String × String))) :=
  if pyTruthyOpt cfg.apiKey then
    let params := requestParams cfg query
    match fetch params with
    | .httpFailure code reason =>
      .ok (⟨[], some ("HTTPError " ++ intStr code ++ ": " ++ reason)⟩, [params])
    | .netFailure reason =>
      .ok (⟨[], some ("Network error: " ++ reason)⟩, [params])
    | .otherFailure msg =>
      .ok (⟨[], some ("Unexpected error: " ++ msg)⟩, [params])
    | .json data =>
      match data with
      | .obj dfs =>
        match pySlice ((dfs.lookup "search_results").getD (.arr [])) max_items with
        | .error e => .error e
        | .ok sliced =>
          match cleanItems sliced with
          | .error e => .error e
          | .ok cleaned => .ok (⟨cleaned, none⟩, [params])
      | _ => .error "AttributeError: get"
  else
    .ok (⟨[], some "Missing RAINFOREST_API_KEY environment variable."⟩, [])

/-! ## HTML rendering (`render_html`, lines 108-203)

Python builds the page by concatenating f-string fragments.  The f-string is
embedded as a token list: `.lit` tokens are the fixed template text exactly
as in the source, `.esc` tokens are the interpolations passed through
`html.escape`, and `.num` tokens are the two number formattings in the
rating display.  `tokStr` maps a token to the text it contributes and
`renderHtml` is the joined page, so the token list is just the f-string
concatenation made explicit. -/

/-- One fragment of the rendered page. -/
inductive Tok where
  | lit (s : String)
  | esc (s : String)
  | num (s : String)
deriving DecidableEq

/-- A single character of `html.escape` output.  Python escapes by chained
`str.replace` (`&` first, then `<`, `>`, `"`, `'`); since no replacement
output contains a character rewritten by a later pass, that equals this
character-wise map. -/
def escCharL (c : Char) : List Char :=
  if c = '&' then "&amp;".data
  else if c = '<' then "&lt;".data
  else if c = '>' then "&gt;".data
  else if c = '\x22' then "&quot;".data
  else if c = '\x27' then "&#x27;".data
  else [c]

/-- Python `html.escape(s, quote=True)` (the default used throughout). -/
def htmlEscape (s : String) : String := ⟨(s.data.map escCharL).flatten⟩

/-- The text a token contributes to the page. -/
def tokStr : Tok → String
  | .lit s => s
  | .esc s => htmlEscape s
  | .num s => s

/-- The fixed head template up to the interpolated `{esc(query)}` in the
search form's `value` attribute (source lines 110-150). -/
def headPre : String :=
  "
<!doctype html>
<html lang=\"en\">
<head>
  <meta charset=\"utf-8\" />
  <meta name=\"viewport\" content=\"width=device-width, initial-scale=1\" />
  <title>Rainforest Amazon Search</title>
  <style>
    :root \x7b
      --bg: #0f172a; /* slate-900 */
      --card: #111827; /* gray-900 */
      --muted: #94a3b8; /* slate-400 */
      --fg: #e5e7eb; /* gray-200 */
      --accent: #22c55e; /* green-500 */
    \x7d
    * \x7b box-sizing: border-box; \x7d
    body \x7b margin: 0; font-family: ui-sans-serif, system-ui, -apple-system, Segoe UI, Roboto, Helvetica, Arial, Noto Sans, \"Apple Color Emoji\", \"Segoe UI Emoji\"; background: linear-gradient(180deg, #0f172a, #0b1023 50%, #0f172a); color: var(--fg); \x7d
    header \x7b padding: 24px; text-align: center; border-bottom: 1px solid #1f2937; position: sticky; top: 0; backdrop-filter: blur(6px); background: rgba(15, 23, 42, 0.7); \x7d
    h1 \x7b margin: 0; font-size: 20px; letter-spacing: 0.3px; \x7d
    .wrap \x7b max-width: 1080px; margin: 24px auto; padding: 0 16px; \x7d
    form \x7b display: flex; gap: 8px; margin-top: 12px; justify-content: center; \x7d
    input[type=text] \x7b flex: 1; max-width: 520px; padding: 12px 14px; border-radius: 10px; border: 1px solid #374151; background: #0b1224; color: var(--fg); outline: none; \x7d
    input[type=text]:focus \x7b border-color: var(--accent); box-shadow: 0 0 0 3px rgba(34,197,94,.15); \x7d
    button \x7b padding: 12px 16px; border-radius: 10px; border: 1px solid #14532d; background: linear-gradient(180deg,#22c55e,#16a34a); color: white; cursor: pointer; \x7d
    .grid \x7b display: grid; grid-template-columns: repeat(auto-fit, minmax(240px, 1fr)); gap: 16px; margin-top: 20px; \x7d
    .card \x7b background: radial-gradient(1200px 600px at 20% -10%, rgba(34,197,94,0.08), transparent), var(--card); border: 1px solid #1f2937; border-radius: 14px; padding: 14px; transition: transform .12s ease, border-color .12s ease; \x7d
    .card:hover \x7b transform: translateY(-2px); border-color: #374151; \x7d
    .title \x7b font-size: 14px; line-height: 1.3; margin: 8px 0; min-height: 3.2em; \x7d
    .meta \x7b color: var(--muted); font-size: 12px; display: flex; gap: 10px; align-items: center; \x7d
    .price \x7b color: #fbbf24; font-weight: 600; \x7d
    .imgwrap \x7b display: flex; align-items: center; justify-content: center; background: #ffffff; border: 1px solid #1f2937; border-radius: 10px; height: 180px; overflow: hidden; \x7d
    .imgwrap img \x7b max-height: 160px; max-width: 100%; object-fit: contain; \x7d
    footer \x7b text-align: center; color: var(--muted); font-size: 12px; padding: 24px; \x7d
    .error \x7b color: #fecaca; background: #7f1d1d; border: 1px solid #b91c1c; padding: 10px 12px; border-radius: 10px; margin: 16px auto; max-width: 720px; \x7d
  </style>
</head>
<body>
  <header>
    <h1>Rainforest Amazon Search</h1>
    <form method=\"GET\" action=\"/\">
      <input type=\"text\" name=\"q\" placeholder=\"Search Amazon…\" value=\""

/-- The fixed head template after the interpolated query (lines 150-155). -/
def headPost : String :=
  "\" />
      <button type=\"submit\">Search</button>
    </form>
  </header>
  <div class=\"wrap\">
"

/-- The fixed tail before the interpolated `{domain}` (lines 194-197). -/
def tailPre : String :=
  "
  </div>
  <footer>
    Powered by Rainforest API • Domain: "

/-- The fixed tail after the interpolated domain (lines 197-201). -/
def tailPost : String :=
  "
  </footer>
</body>
</html>
"

/-- `'<div class="error">{esc(error)}</div>'` opening (line 159). -/
def bannerOpen : String := "<div class=\"error\">"

/-- Error banner closing tag (line 159). -/
def bannerClose : String := "</div>"

/-- The "no results" notice appended when the results list is empty
(line 162). -/
def noticeLit : String := "<p class=\"meta\">No results found.</p>"

/-- Grid opening tag (line 164). -/
def gridOpen : String := "<div class=\"grid\">"

/-- Grid closing tag (line 192). -/
def gridClose : String := "</div>"

/-- Card f-string up to `{html.escape(link)}` (line 181). -/
def cardPre : String := "
                <a class=\"card\" href=\""

/-- Card f-string from the link to `{img_html}` (lines 181-182). -/
def cardA : String := "\" target=\"_blank\" rel=\"noopener noreferrer\">
                  <div class=\"imgwrap\">"

/-- Card f-string from `img_html` to `{title}` (lines 182-183). -/
def cardB : String := "</div>
                  <div class=\"title\">"

/-- Card f-string from the title to `{price}` (lines 183-185). -/
def cardC : String := "</div>
                  <div class=\"meta\">
                    <span class=\"price\">"

/-- Card f-string from the price to `{asin}` (lines 185-186). -/
def cardD : String := "</span>
                    <span>ASIN: "

/-- Card f-string from the asin to `{rating_text}` (lines 186-187). -/
def cardE : String := "</span>
                    "

/-- Card f-string after `rating_text` (lines 187-190). -/
def cardF : String := "
                  </div>
                </a>
                "

/-- `img_html` opening, `'<img src="'` (line 178). -/
def imgOpen : String := "<img src=\""

/-- `img_html` between `src` and `alt` (line 178). -/
def imgMid : String := "\" alt=\""

/-- `img_html` closing (line 178). -/
def imgClose : String := "\">"

/-- The placeholder emitted when the image is falsy (line 178). -/
def imgPlaceholder : String := "<div style=\"height:1px\"></div>"

/-- Rating display opening, `"<span>★ "` (line 174). -/
def ratingOpen : String := "<span>★ "

/-- Rating display between the two numbers (line 174). -/
def ratingMid : String := "</span> <span>("

/-- Rating display closing (line 174). -/
def ratingClose : String := ")</span>"

/-- `rating_text` (lines 173-177): the formatted rating segment when
`isinstance(rating, (int, float)) and isinstance(ratings_total, int)`,
otherwise the empty string (no tokens). -/
def ratingToks (rating ratings_total : JVal) : List Tok :=
  if pyIsNum rating && pyIsInt ratings_total then
    [.lit ratingOpen, .num (pyFmt1 rating), .lit ratingMid,
     .num (pyComma ratings_total), .lit ratingClose]
  else []

/-- `html.escape` demands a `str` argument; on any other value Python raises
`AttributeError` (no `.replace` method). -/
def escVal : JVal → Except String String
  | .str s => .ok s
  | _ => .error "AttributeError: replace"

/-- `img_html` (line 178): the conditional expression escapes the image URL
only in the truthy branch, and embeds the already-escaped title as `alt`. -/
def imgToks (image : JVal) (title : String) : Except String (List Tok) :=
  if pyTruthy image then
    match escVal image with
    | .error e => .error e
    | .ok s => .ok [Tok.lit imgOpen, Tok.esc s, Tok.lit imgMid, Tok.esc title, Tok.lit imgClose]
  else .ok [Tok.lit imgPlaceholder]

/-- One result card (lines 165-191).  The cleaned dict always carries all
seven keys, so `r.get("title", "")` etc. are plain field reads; `title`,
`asin` and `price` pass through `str()` before escaping, while `link` and
`image` are escaped directly (raising on non-`str` values).  `img_html` is
computed before the card f-string escapes the link, matching the source's
evaluation order. -/
def cardToks (r : Item) : Except String (List Tok) :=
  match imgToks (pyOrV r.image (.str "")) (pyStr r.title) with
  | .error e => .error e
  | .ok ih =>
    match escVal (pyOrV r.link (.str "#")) with
    | .error e => .error e
    | .ok linkS =>
      .ok ([Tok.lit cardPre, Tok.esc linkS, Tok.lit cardA] ++ ih ++
        [Tok.lit cardB, Tok.esc (pyStr r.title), Tok.lit cardC,
         Tok.esc (pyStr r.price), Tok.lit cardD, Tok.esc (pyStr r.asin), Tok.lit cardE] ++
        ratingToks r.rating r.ratings_total ++ [Tok.lit cardF])

/-- The card loop (lines 165-191), cards in result order. -/
def cardsToks : List Item → Except String (List Tok)
  | [] => .ok []
  | r :: rs =>
    match cardToks r with
    | .error e => .error e
    | .ok c =>
      match cardsToks rs with
      | .error e => .error e
      | .ok rest => .ok (c ++ rest)

/-- `if error: body.append(...)` (lines 158-159): the banner appears when
the error is truthy (non-`None` and non-empty). -/
def bannerToks : Option String → List Tok
  | some e => if e != "" then [Tok.lit bannerOpen, Tok.esc e, Tok.lit bannerClose] else []
  | none => []

/-- The `body` list (lines 157-192): optional banner, then either the
"no results" notice (whenever `results` is empty) or the grid of cards. -/
def bodyToks (results : List Item) (error : Option String) : Except String (List Tok) :=
  if results.isEmpty then .ok (bannerToks error ++ [Tok.lit noticeLit])
  else
    match cardsToks results with
    | .error e => .error e
    | .ok cs => .ok (bannerToks error ++ [Tok.lit gridOpen] ++ cs ++ [Tok.lit gridClose])

/-- `render_html` as its token sequence: head (with the escaped query),
body, tail (with the escaped domain). -/
def renderToks (domain query : String) (results : List Item) (error : Option String) :
    Except String (List Tok) :=
  match bodyToks results error with
  | .error e => .error e
  | .ok b =>
    .ok ([Tok.lit headPre, Tok.esc query, Tok.lit headPost] ++ b ++
         [Tok.lit tailPre, Tok.esc domain, Tok.lit tailPost])

/-- `render_html(query, results, error)` (lines 108-203): the concatenated
page text (the final `.encode("utf-8")` is not modelled; properties are read
on the text).  `Except.error` marks an uncaught exception escaping
`render_html`. -/
def renderHtml (domain query : String) (results : List Item) (error : Option String) :
    Except String String :=
  match renderToks domain query results error with
  | .error e => .error e
  | .ok ts => .ok (String.join (ts.map tokStr))

/-! ## Request handling (`Handler.do_GET`, lines 207-227) -/

/-- The fixed default query (line 45). -/
def DEFAULT_QUERY : String := "latest xbox"

/-- Python `str.isspace` characters for the ASCII range used by `.strip()`. -/
def pyIsSpace (c : Char) : Bool :=
  c = ' ' || c = '\t' || c = '\n' || c = '\x0b' || c = '\x0c' || c = '\r'

/-- Python `s.strip()`: remove leading and trailing whitespace. -/
def pyStrip (s : String) : String :=
  ⟨((s.data.dropWhile pyIsSpace).reverse.dropWhile pyIsSpace).reverse⟩

/-- `qs.get("q", [DEFAULT_QUERY])[0].strip() or DEFAULT_QUERY` (line 218):
the first `q` parameter (or the default when absent), stripped, with the
default substituted when the strip leaves the empty string. -/
def effectiveQuery (qparam : Option String) : String :=
  let s := pyStrip (qparam.getD DEFAULT_QUERY)
  if s = "" then DEFAULT_QUERY else s

/-- `do_GET` on `/` (lines 216-227): resolve the effective query, fetch,
render; the same effective query is passed to `search_rainforest` and to
`render_html`.  The result pairs the page with the outbound calls issued. -/
def handle (cfg : Config) (qparam : Option String)
    (fetch : List (String × String) → Upstream) :
    Except String (String × List (List (String × String))) :=
  let query := effectiveQuery qparam
  match search_rainforest cfg query fetch with
  | .error e => .error e
  | .ok (payload, calls) =>
    match renderHtml cfg.domain query payload.results payload.error with
    | .error e => .error e
    | .ok page => .ok (page, calls)

/-! ## Verification-side definitions -/

/-- A character that cannot open/close a tag or break out of a quoted
attribute: not `<`, not `>`, not `"`. -/
def goodChar (c : Char) : Prop := c ≠ '<' ∧ c ≠ '>' ∧ c ≠ '\x22'

instance (c : Char) : Decidable (goodChar c) :=
  inferInstanceAs (Decidable (c ≠ '<' ∧ c ≠ '>' ∧ c ≠ '\x22'))

/-- Every character of the string is `goodChar`. -/
def noBadChars (s : String) : Prop := ∀ c ∈ s.data, goodChar c

instance (s : String) : Decidable (noBadChars s) :=
  inferInstanceAs (Decidable (∀ c ∈ s.data, goodChar c))

/-- A token is safe if the text it contributes to the page contains no
unescaped `<`, `>` or `"` — vacuously so for the fixed template literals,
which are the only place markup may come from. -/
def tokSafe : Tok → Prop
  | .lit _ => True
  | .esc s => noBadChars (htmlEscape s)
  | .num s => noBadChars s

/-- The raw-item keys `search_rainforest` consults during normalization. -/
def consultedKeys : List String :=
  ["title", "asin", "link", "image", "price", "prices", "rating", "ratings_total"]

/-- The price-resolution rule exactly as claim C3 words it: (a) the `price`
field's nested `raw` string whenever `price` is an object, (b) otherwise
`prices[0].raw` when the `prices` list is non-empty, (c) otherwise `""`;
`none` where the claim's text does not determine a value (non-object item,
object-shaped `price` without a nested raw string, or a malformed first
`prices` entry).  Used only to exhibit the divergence from the code. -/
def claimPriceC3 : JVal → Option String
  | .obj fs =>
    match fs.lookup "price" with
    | some (.obj pfs) =>
      match pfs.lookup "raw" with
      | some (.str s) => some s
      | _ => none
    | _ =>
      match fs.lookup "prices" with
      | some (.arr (x :: _)) =>
        match x with
        | .obj qfs =>
          match qfs.lookup "raw" with
          | some (.str s) => some s
          | _ => none
        | _ => none
      | _ => some ""
  | _ => none

/-- The token list of a successful render (empty on the unreachable error
side); used to state concrete counterexamples/witnesses without binders. -/
def toksOf (domain query : String) (results : List Item) (error : Option String) : List Tok :=
  (renderToks domain query results error).toOption.getD []

/-- The token list of one successfully rendered card. -/
def cardToksOf (r : Item) : List Tok := (cardToks r).toOption.getD []

/-- A configuration with the credential set (example value). -/
def cfgOk : Config := ⟨some "k", "amazon.com"⟩

/-- The cleaned record produced from the empty raw item `{}`. -/
def defaultItem : Item := ⟨.str "(no title)", .str "", .str "", .str "", .str "", .null, .null⟩

/-- 25 empty raw items (example value for the truncation claim). -/
def xs25 : List JVal := List.replicate 25 (.obj [])

/-- A fetch returning a result list of 25 raw items. -/
def fetch25 : List (String × String) → Upstream :=
  fun _ => .json (.obj [("search_results", .arr xs25)])

/-- The outcome of cleaning `xs25` truncated to 10 items. -/
def out10 : Outcome := ⟨List.replicate 10 defaultItem, none⟩

/-- The raw item of the C3 counterexample: an object-shaped `price` whose
`raw` is the empty string, next to a non-empty `prices` list. -/
def c3CexItem : JVal :=
  .obj [("price", .obj [("raw", .str "")]), ("prices", .arr [.obj [("raw", .str "$5")]])]

/-- A result whose externally-sourced fields all carry markup characters
(example value for the escaping claim). -/
def evilItem : Item :=
  ⟨.str "<script>alert(1)</script>", .str "<a>", .str "https://x?a=1&b=\x222\x22",
   .str "https://img/<i>.png", .str "<$9.99>", .float (mkRat 9 2), .int 1234⟩

/-- The token list of a render of `evilItem` with a markup-bearing query and
error. -/
def c5Toks : List Tok := toksOf "amazon.com" "<q>" [evilItem] (some "<err>")

/-- A result with a numeric rating and an integer ratings count (example
value for the rating-display claim). -/
def ratedItem : Item :=
  ⟨.str "t", .str "a", .str "https://x", .str "i", .str "$1", .float (mkRat 9 2), .int 1234⟩

/-- The token list of `ratedItem`'s card. -/
def c9Ts : List Tok := cardToksOf ratedItem

/-! ## Helper lemmas -/

/-- Association-list lookup misses when no entry carries the key. -/
theorem lookup_eq_none {fs : List (String × JVal)} {k : String}
    (h : ∀ kv ∈ fs, kv.1 ≠ k) : fs.lookup k = none := by
  induction fs with
  | nil => rfl
  | cons a t ih =>
    obtain ⟨k1, v1⟩ := a
    have hne : (k == k1) = false :=
      beq_eq_false_iff_ne.mpr fun hh => h (k1, v1) (List.mem_cons_self _ _) hh.symm
    simp only [List.lookup, hne]
    exact ih fun kv hkv => h kv (List.mem_cons_of_mem _ hkv)

/-! ## Claim theorems -/

/-- C7: when the API credential is not configured (unset, or empty and hence
falsy), `search_rainforest` short-circuits for every query and every possible
upstream behaviour: empty result list, the fixed missing-credential message,
and an empty list of outbound calls. -/
theorem c7_missing_credential_short_circuit (cfg : Config) (query : String)
    (fetch : List (String × String) → Upstream) (n : Nat)
    (h : pyTruthyOpt cfg.apiKey = false) :
    search_rainforest cfg query fetch n =
      .ok (⟨[], some "Missing RAINFOREST_API_KEY environment variable."⟩, []) := by
  simp [search_rainforest, h]

/-- Witness for C7 at the concrete unset-credential configuration. -/
theorem c7_missing_credential_short_circuit_witness :
    pyTruthyOpt (none : Option String) = false ∧
    search_rainforest ⟨none, "amazon.com"⟩ "latest xbox" (fun _ => .netFailure "boom") 10 =
      .ok (⟨[], some "Missing RAINFOREST_API_KEY environment variable."⟩, []) :=
  ⟨rfl, c7_missing_credential_short_circuit _ _ _ _ rfl⟩

/-- C1 (amended): failures raised inside the guarded fetch step — network
failure, non-2xx HTTP status, and any other fetch/decode/parse exception
such as malformed JSON — are recovered into an outcome with an empty result
list and a class-naming error message.  (A parsed body that is not a JSON
object raises outside the guard; see the counterexample.) -/
theorem c1_fetch_failures_recovered (cfg : Config) (query : String) (n : Nat)
    (reason msg : String) (code : Int) (h : pyTruthyOpt cfg.apiKey = true) :
    search_rainforest cfg query (fun _ => .netFailure reason) n =
      .ok (⟨[], some ("Network error: " ++ reason)⟩, [requestParams cfg query]) ∧
    search_rainforest cfg query (fun _ => .httpFailure code reason) n =
      .ok (⟨[], some ("HTTPError " ++ intStr code ++ ": " ++ reason)⟩, [requestParams cfg query]) ∧
    search_rainforest cfg query (fun _ => .otherFailure msg) n =
      .ok (⟨[], some ("Unexpected error: " ++ msg)⟩, [requestParams cfg query]) := by
  refine ⟨?_, ?_, ?_⟩ <;> simp [search_rainforest, h]

/-- Witness for C1's amended recovery statement at concrete inputs. -/
theorem c1_fetch_failures_recovered_witness :
    pyTruthyOpt cfgOk.apiKey = true ∧
    search_rainforest cfgOk "q" (fun _ => .netFailure "timed out") 10 =
      .ok (⟨[], some ("Network error: " ++ "timed out")⟩, [requestParams cfgOk "q"]) :=
  ⟨rfl, (c1_fetch_failures_recovered cfgOk "q" 10 "timed out" "Expecting value" 404 rfl).1⟩

/-- Counterexample to C1 as stated: a well-formed JSON body that is not an
object (here `[]`) makes `search_rainforest` raise `AttributeError` at
`data.get("search_results", [])`, which sits outside the `try` block — the
function does not return an outcome. -/
theorem c1_nonobject_body_raises :
    search_rainforest cfgOk "q" (fun _ => .json (.arr [])) 10 =
      .error "AttributeError: get" := rfl

/-- Counterexample to C2 as stated: normalization is not total under field
absence.  The raw item `{"prices": [5]}` — every consulted field absent
except `prices` — raises `AttributeError` at `item["prices"][0].get("raw")`
(line 91), while the same item with a truthy `price.raw` field added
succeeds: removing a present field from a succeeding item introduces the
failure, so "any subset of its fields absent" is not tolerated. -/
theorem c2_nonobject_prices_entry_raises :
    normalizeItem (.obj [("prices", .arr [.int 5])]) = .error "AttributeError: get" ∧
    (normalizeItem (.obj [("price", .obj [("raw", .str "$10")]),
      ("prices", .arr [.int 5])])).isOk = true :=
  ⟨rfl, rfl⟩

/-- C2 (amended): normalizing any JSON object in which every consulted key
is absent (arbitrary other fields may be present) — in particular the empty
object `{}` — succeeds and yields the documented defaults: title
`"(no title)"`, empty asin/link/image/price, null rating and ratings_total.
(Full totality under arbitrary subsets of absent fields fails: see the
counterexample, where a present non-object `prices[0]` entry raises once
the falsy-`price.raw` fallback is reachable.) -/
theorem c2_normalize_missing_fields_defaults (fs : List (String × JVal))
    (h : ∀ kv ∈ fs, kv.1 ∉ consultedKeys) :
    normalizeItem (.obj fs) = .ok defaultItem := by
  have hk : ∀ k, k ∈ consultedKeys → fs.lookup k = none := fun k hkmem =>
    lookup_eq_none fun kv hkv heq => h kv hkv (by rwa [heq])
  have h1 := hk "title" (by simp [consultedKeys])
  have h2 := hk "asin" (by simp [consultedKeys])
  have h3 := hk "link" (by simp [consultedKeys])
  have h4 := hk "image" (by simp [consultedKeys])
  have h5 := hk "price" (by simp [consultedKeys])
  have h6 := hk "prices" (by simp [consultedKeys])
  have h7 := hk "rating" (by simp [consultedKeys])
  have h8 := hk "ratings_total" (by simp [consultedKeys])
  simp [normalizeItem, dictGet, h1, h2, h3, h4, h5, h6, h7, h8, defaultItem, pyOrV, pyTruthy]

/-- Witness for C2 at the empty object `{}`. -/
theorem c2_normalize_missing_fields_defaults_witness :
    (∀ kv ∈ ([] : List (String × JVal)), kv.1 ∉ consultedKeys) ∧
    normalizeItem (.obj []) = .ok defaultItem :=
  ⟨by simp, c2_normalize_missing_fields_defaults [] (by simp)⟩

/-- Counterexample to C3 as stated: on an item whose `price` field is an
object with nested raw string `""` and whose `prices` list is non-empty, the
claim's rule (a) yields `""`, but the code takes `prices[0].raw` (`"$5"`). -/
theorem c3_empty_raw_prefers_prices :
    claimPriceC3 c3CexItem = some "" ∧
    (normalizeItem c3CexItem).map Item.price = .ok (.str "$5") ∧
    ("" : String) ≠ "$5" :=
  ⟨rfl, rfl, by decide⟩

/-- C3 (amended): rule (a) takes precedence over (b) whenever the `price`
object's `raw` value is a truthy string — for any non-empty raw string the
result is that string whatever `prices` holds — and the claim's two concrete
examples hold as stated. -/
theorem c3_price_precedence_amended (s : String) (ps : JVal) (hs : s ≠ "") :
    (normalizeItem (.obj [("price", .obj [("raw", .str s)]), ("prices", ps)])).map Item.price
      = .ok (.str s) ∧
    (normalizeItem (.obj [("price", .obj [("raw", .str "$10")]),
        ("prices", .arr [.obj [("raw", .str "$5")]])])).map Item.price = .ok (.str "$10") ∧
    (normalizeItem (.obj [("prices", .arr [.obj [("raw", .str "$5")]])])).map Item.price
      = .ok (.str "$5") := by
  refine ⟨?_, rfl, rfl⟩
  simp [normalizeItem, dictGet, pyOrV, pyTruthy, List.lookup, hs, Except.map]

/-- Witness for C3's amended statement at the claim's own example. -/
theorem c3_price_precedence_amended_witness :
    ("$10" : String) ≠ "" ∧
    (normalizeItem (.obj [("price", .obj [("raw", .str "$10")]),
        ("prices", .arr [.obj [("raw", .str "$5")]])])).map Item.price = .ok (.str "$10") :=
  ⟨by decide, (c3_price_precedence_amended "$10" (.arr [.obj [("raw", .str "$5")]]) (by decide)).1⟩

/-- C10: when the `price` field is an object whose `raw` entry is missing or
the empty string, and `prices` is a non-empty list whose first entry carries
a non-empty raw string, the normalized price is taken from `prices[0].raw`
rather than defaulting to the empty string. -/
theorem c10_falsy_price_raw_fallback (pfs : List (String × JVal)) (p : String)
    (rest : List JVal) (hp : pfs = [] ∨ pfs = [("raw", .str "")]) (hs : p ≠ "") :
    (normalizeItem (.obj [("price", .obj pfs),
        ("prices", .arr (.obj [("raw", .str p)] :: rest))])).map Item.price = .ok (.str p) := by
  rcases hp with rfl | rfl <;>
    simp [normalizeItem, dictGet, pyOrV, pyTruthy, List.lookup, hs, Except.map]

/-- Witness for C10 at the empty-string raw entry. -/
theorem c10_falsy_price_raw_fallback_witness :
    (normalizeItem (.obj [("price", .obj [("raw", .str "")]),
        ("prices", .arr [.obj [("raw", .str "$5")]])])).map Item.price = .ok (.str "$5") :=
  c10_falsy_price_raw_fallback [("raw", .str "")] "$5" [] (Or.inr rfl) (by decide)

/-- C8: the effective query is the whitespace-stripped inbound `q`
parameter, with the fixed default `"latest xbox"` substituted when the
parameter is absent or strips to the empty string (in particular for
all-whitespace input). -/
theorem c8_effective_query :
    effectiveQuery none = DEFAULT_QUERY ∧
    (∀ s, (∀ c ∈ s.data, pyIsSpace c = true) → effectiveQuery (some s) = DEFAULT_QUERY) ∧
    (∀ s, pyStrip s = "" → effectiveQuery (some s) = DEFAULT_QUERY) ∧
    (∀ s, pyStrip s ≠ "" → effectiveQuery (some s) = pyStrip s) := by
  refine ⟨rfl, ?_, ?_, ?_⟩
  · intro s h
    have hd : s.data.dropWhile pyIsSpace = [] :=
      List.dropWhile_eq_nil_iff.mpr fun x hx => h x hx
    have hstrip : pyStrip s = "" := by simp [pyStrip, hd]
    simp [effectiveQuery, hstrip]
  · intro s h
    simp [effectiveQuery, h]
  · intro s h
    simp [effectiveQuery, h]

/-- Witness for C8 on all-whitespace and on padded input. -/
theorem c8_effective_query_witness :
    (∀ c ∈ ("   " : String).data, pyIsSpace c = true) ∧
    effectiveQuery (some "   ") = DEFAULT_QUERY ∧
    effectiveQuery (some " nintendo switch ") = pyStrip " nintendo switch " :=
  ⟨by decide, c8_effective_query.2.1 "   " (by decide),
   c8_effective_query.2.2.2 " nintendo switch " (by decide)⟩

/-- A successful run of the cleaning loop produces one output per input, in
order: the i-th cleaned record is the normalization of the i-th raw item. -/
theorem cleanItems_ok {xs : List JVal} {ys : List Item} (h : cleanItems xs = .ok ys) :
    ys.length = xs.length ∧
    ∀ i (h1 : i < xs.length) (h2 : i < ys.length),
      normalizeItem (xs.get ⟨i, h1⟩) = .ok (ys.get ⟨i, h2⟩) := by
  induction xs generalizing ys with
  | nil =>
    simp only [cleanItems] at h
    cases h
    exact ⟨rfl, fun i h1 _ => absurd h1 (Nat.not_lt_zero i)⟩
  | cons x xt ih =>
    simp only [cleanItems] at h
    cases hn : normalizeItem x with
    | error e => rw [hn] at h; cases h
    | ok a =>
      rw [hn] at h
      cases hc : cleanItems xt with
      | error e => rw [hc] at h; cases h
      | ok rest =>
        rw [hc] at h
        cases h
        obtain ⟨hlen, hget⟩ := ih hc
        refine ⟨by simp [hlen], ?_⟩
        intro i h1 h2
        cases i with
        | zero => simpa using hn
        | succ j => exact hget j (by simpa using h1) (by simpa using h2)

/-- C4: whenever the upstream returns a JSON object whose `search_results`
list is `xs` and the search succeeds, the outcome holds at most `max_items`
results — exactly `min max_items xs.length` — and the i-th result is the
normalization of the i-th raw item, so original order is preserved. -/
theorem c4_truncation_preserves_order (cfg : Config) (q : String) (xs : List JVal)
    (n : Nat) (fetch : List (String × String) → Upstream) (out : Outcome)
    (calls : List (List (String × String)))
    (hkey : pyTruthyOpt cfg.apiKey = true)
    (hfetch : fetch (requestParams cfg q) = .json (.obj [("search_results", .arr xs)]))
    (hok : search_rainforest cfg q fetch n = .ok (out, calls)) :
    out.results.length ≤ n ∧ out.results.length = min n xs.length ∧
    ∀ i (h1 : i < xs.length) (h2 : i < out.results.length),
      normalizeItem (xs.get ⟨i, h1⟩) = .ok (out.results.get ⟨i, h2⟩) := by
  have hstep : search_rainforest cfg q fetch n =
      (match cleanItems (xs.take n) with
       | .error e => .error e
       | .ok cleaned => .ok (⟨cleaned, none⟩, [requestParams cfg q])) := by
    simp [search_rainforest, hkey, hfetch, pySlice]
  rw [hstep] at hok
  cases hc : cleanItems (xs.take n) with
  | error e => rw [hc] at hok; cases hok
  | ok cleaned =>
    rw [hc] at hok
    injection hok with hpair
    injection hpair with hout hcalls
    subst hout
    obtain ⟨hlen, hget⟩ := cleanItems_ok hc
    have hlen2 : cleaned.length = min n xs.length := by
      rw [hlen, List.length_take]
    refine ⟨show cleaned.length ≤ n by omega, hlen2, ?_⟩
    intro i h1 h2
    have h1t : i < (xs.take n).length := by
      rw [List.length_take]
      exact hlen2 ▸ h2
    have := hget i h1t h2
    rwa [show (xs.take n).get ⟨i, h1t⟩ = xs.get ⟨i, h1⟩ from by
      simp [List.get_eq_getElem, List.getElem_take]] at this

/-- Witness for C4: 25 empty raw items truncate to exactly 10 defaults. -/
theorem c4_truncation_preserves_order_witness :
    out10.results.length ≤ 10 ∧ out10.results.length = min 10 xs25.length := by
  have h := c4_truncation_preserves_order cfgOk "q" xs25 10 fetch25 out10
    [requestParams cfgOk "q"] rfl rfl rfl
  exact ⟨h.1, h.2.1⟩

/-- Every character emitted by the escape map is safe. -/
theorem escCharL_good (a c : Char) (h : c ∈ escCharL a) : goodChar c := by
  unfold escCharL at h
  split_ifs at h with h1 h2 h3 h4 h5
  · exact (by decide : ∀ x ∈ "&amp;".data, goodChar x) c h
  · exact (by decide : ∀ x ∈ "&lt;".data, goodChar x) c h
  · exact (by decide : ∀ x ∈ "&gt;".data, goodChar x) c h
  · exact (by decide : ∀ x ∈ "&quot;".data, goodChar x) c h
  · exact (by decide : ∀ x ∈ "&#x27;".data, goodChar x) c h
  · rw [List.mem_singleton] at h
    subst h
    exact ⟨h2, h3, h4⟩

/-- `html.escape` output never contains `<`, `>` or `"`. -/
theorem htmlEscape_noBad (s : String) : noBadChars (htmlEscape s) := by
  intro c hc
  have hc2 : c ∈ (s.data.map escCharL).flatten := hc
  rcases List.mem_flatten.mp hc2 with ⟨l, hl, hcl⟩
  rcases List.mem_map.mp hl with ⟨a, _, rfl⟩
  exact escCharL_good a c hcl

/-- Decimal digit characters are safe. -/
theorem digitChar_good (n : Nat) (h : n < 10) : goodChar (Nat.digitChar n) := by
  interval_cases n <;> decide

/-- All characters of a rendered natural number are safe. -/
theorem natDigitsF_good (f : Nat) : ∀ n, ∀ c ∈ natDigitsF f n, goodChar c := by
  induction f with
  | zero => intro n c hc; simp [natDigitsF] at hc
  | succ f ih =>
    intro n c hc
    simp only [natDigitsF] at hc
    by_cases hlt : n < 10
    · rw [if_pos hlt, List.mem_singleton] at hc
      subst hc
      exact digitChar_good n hlt
    · rw [if_neg hlt] at hc
      rcases List.mem_append.mp hc with h | h
      · exact ih _ c h
      · rw [List.mem_singleton] at h
        subst h
        exact digitChar_good _ (Nat.mod_lt _ (by norm_num))

/-- All characters of a rendered natural number are safe. -/
theorem natDigits_good (n : Nat) : ∀ c ∈ natDigits n, goodChar c :=
  natDigitsF_good _ n

/-- All characters of a rendered integer are safe. -/
theorem intChars_good (n : Int) : ∀ c ∈ intChars n, goodChar c := by
  intro c hc
  unfold intChars at hc
  by_cases hn : n < 0
  · rw [if_pos hn] at hc
    rcases List.mem_cons.mp hc with rfl | h
    · decide
    · exact natDigits_good _ c h
  · rw [if_neg hn] at hc
    exact natDigits_good _ c hc

/-- Comma grouping only inserts commas. -/
theorem commaRevF_sub (f : Nat) : ∀ ds c, c ∈ commaRevF f ds → c ∈ ds ∨ c = ',' := by
  induction f with
  | zero => intro ds c hc; simp only [commaRevF] at hc; exact Or.inl hc
  | succ f ih =>
    intro ds c hc
    simp only [commaRevF] at hc
    by_cases h3 : ds.length ≤ 3
    · rw [if_pos h3] at hc; exact Or.inl hc
    · rw [if_neg h3] at hc
      rcases List.mem_append.mp hc with h | h
      · exact Or.inl (List.take_subset _ _ h)
      · rcases List.mem_cons.mp h with rfl | h
        · exact Or.inr rfl
        · rcases ih _ c h with h | h
          · exact Or.inl (List.drop_subset _ _ h)
          · exact Or.inr h

/-- The thousands-separated count contains only digits, `-` and `,`. -/
theorem pyComma_good (v : JVal) : noBadChars (pyComma v) := by
  intro c hc
  cases v with
  | int n =>
    have hc2 : c ∈ (if n < 0 then ['-'] else []) ++ commaGroup (natDigits n.natAbs) := hc
    rcases List.mem_append.mp hc2 with h | h
    · by_cases hn : n < 0
      · rw [if_pos hn, List.mem_singleton] at h; subst h; decide
      · rw [if_neg hn] at h; simp at h
    · have h2 : c ∈ natDigits n.natAbs ∨ c = ',' := by
        unfold commaGroup at h
        rw [List.mem_reverse] at h
        rcases commaRevF_sub _ _ c h with h | h
        · exact Or.inl (List.mem_reverse.mp h)
        · exact Or.inr h
      rcases h2 with h2 | rfl
      · exact natDigits_good _ c h2
      · decide
  | bool b =>
    cases b
    · exact (by decide : ∀ x ∈ ("0" : String).data, goodChar x) c hc
    · exact (by decide : ∀ x ∈ ("1" : String).data, goodChar x) c hc
  | null => exact absurd hc (List.not_mem_nil c)
  | float q => exact absurd hc (List.not_mem_nil c)
  | str s => exact absurd hc (List.not_mem_nil c)
  | arr xs => exact absurd hc (List.not_mem_nil c)
  | obj fs => exact absurd hc (List.not_mem_nil c)

/-- Sign, digits, dot, digit: all safe. -/
theorem signDigitsDot_good (m : Int) :
    ∀ c ∈ (if m < 0 then ['-'] else []) ++ natDigits (m.natAbs / 10) ++ ['.'] ++
      natDigits (m.natAbs % 10), goodChar c := by
  intro c hc
  rcases List.mem_append.mp hc with h | h
  · rcases List.mem_append.mp h with h | h
    · rcases List.mem_append.mp h with h | h
      · by_cases hn : m < 0
        · rw [if_pos hn, List.mem_singleton] at h; subst h; decide
        · rw [if_neg hn] at h; simp at h
      · exact natDigits_good _ c h
    · rw [List.mem_singleton] at h; subst h; decide
  · exact natDigits_good _ c h

/-- The 1-decimal rating rendering contains only digits, `-` and `.`. -/
theorem pyFmt1_good (v : JVal) : noBadChars (pyFmt1 v) := by
  intro c hc
  cases v with
  | int n =>
    have hc2 : c ∈ intChars n ++ ['.', '0'] := hc
    rcases List.mem_append.mp hc2 with h | h
    · exact intChars_good n c h
    · exact (by decide : ∀ x ∈ ['.', '0'], goodChar x) c h
  | float q => exact signDigitsDot_good _ c hc
  | bool b =>
    cases b
    · exact (by decide : ∀ x ∈ ("0.0" : String).data, goodChar x) c hc
    · exact (by decide : ∀ x ∈ ("1.0" : String).data, goodChar x) c hc
  | null => exact absurd hc (List.not_mem_nil c)
  | str s => exact absurd hc (List.not_mem_nil c)
  | arr xs => exact absurd hc (List.not_mem_nil c)
  | obj fs => exact absurd hc (List.not_mem_nil c)

/-- Escaped tokens are safe whatever text they carry. -/
theorem tokSafe_esc (s : String) : tokSafe (.esc s) := htmlEscape_noBad s

/-- All tokens of the rating segment are safe. -/
theorem ratingToks_safe (a b : JVal) : ∀ t ∈ ratingToks a b, tokSafe t := by
  intro t ht
  unfold ratingToks at ht
  by_cases hcond : (pyIsNum a && pyIsInt b) = true
  · rw [if_pos hcond] at ht
    simp only [List.mem_cons, List.not_mem_nil, or_false] at ht
    rcases ht with rfl | rfl | rfl | rfl | rfl
    · exact trivial
    · exact pyFmt1_good a
    · exact trivial
    · exact pyComma_good b
    · exact trivial
  · rw [if_neg hcond] at ht; simp at ht

/-- All tokens of `img_html` are safe. -/
theorem imgToks_safe (image : JVal) (title : String) (ts : List Tok)
    (h : imgToks image title = .ok ts) : ∀ t ∈ ts, tokSafe t := by
  unfold imgToks at h
  by_cases htr : pyTruthy image = true
  · rw [if_pos htr] at h
    cases himg : escVal image with
    | error e => rw [himg] at h; cases h
    | ok s =>
      rw [himg] at h
      cases h
      intro t ht
      simp only [List.mem_cons, List.not_mem_nil, or_false] at ht
      rcases ht with rfl | rfl | rfl | rfl | rfl
      · exact trivial
      · exact tokSafe_esc s
      · exact trivial
      · exact tokSafe_esc title
      · exact trivial
  · rw [if_neg htr] at h
    cases h
    intro t ht
    rw [List.mem_singleton] at ht
    subst ht
    exact trivial

/-- All tokens of a rendered card are safe. -/
theorem cardToks_safe (r : Item) (ts : List Tok) (h : cardToks r = .ok ts) :
    ∀ t ∈ ts, tokSafe t := by
  unfold cardToks at h
  cases hi : imgToks (pyOrV r.image (.str "")) (pyStr r.title) with
  | error e => rw [hi] at h; cases h
  | ok ih =>
    rw [hi] at h
    cases hl : escVal (pyOrV r.link (.str "#")) with
    | error e => rw [hl] at h; cases h
    | ok linkS =>
      rw [hl] at h
      cases h
      intro t ht
      simp only [List.mem_append] at ht
      rcases ht with (((h | h) | h) | h) | h
      · simp only [List.mem_cons, List.not_mem_nil, or_false] at h
        rcases h with rfl | rfl | rfl
        · exact trivial
        · exact tokSafe_esc linkS
        · exact trivial
      · exact imgToks_safe _ _ _ hi t h
      · simp only [List.mem_cons, List.not_mem_nil, or_false] at h
        rcases h with rfl | rfl | rfl | rfl | rfl | rfl | rfl
        · exact trivial
        · exact tokSafe_esc _
        · exact trivial
        · exact tokSafe_esc _
        · exact trivial
        · exact tokSafe_esc _
        · exact trivial
      · exact ratingToks_safe _ _ t h
      · simp only [List.mem_cons, List.not_mem_nil, or_false] at h
        subst h
        exact trivial

/-- All tokens of all rendered cards are safe. -/
theorem cardsToks_safe : ∀ (rs : List Item) (ts : List Tok), cardsToks rs = .ok ts →
    ∀ t ∈ ts, tokSafe t := by
  intro rs
  induction rs with
  | nil =>
    intro ts h
    simp only [cardsToks] at h
    cases h
    intro t ht
    simp at ht
  | cons r rt ih =>
    intro ts h
    simp only [cardsToks] at h
    cases hc : cardToks r with
    | error e => rw [hc] at h; cases h
    | ok c =>
      rw [hc] at h
      cases hcs : cardsToks rt with
      | error e => rw [hcs] at h; cases h
      | ok rest =>
        rw [hcs] at h
        cases h
        intro t ht
        rcases List.mem_append.mp ht with h | h
        · exact cardToks_safe r c hc t h
        · exact ih rest hcs t h

/-- All tokens of the error banner are safe. -/
theorem bannerToks_safe (e : Option String) : ∀ t ∈ bannerToks e, tokSafe t := by
  intro t ht
  cases e with
  | none => simp [bannerToks] at ht
  | some s =>
    simp only [bannerToks] at ht
    by_cases hs : (s != "") = true
    · rw [if_pos hs] at ht
      simp only [List.mem_cons, List.not_mem_nil, or_false] at ht
      rcases ht with rfl | rfl | rfl
      · exact trivial
      · exact tokSafe_esc s
      · exact trivial
    · rw [if_neg hs] at ht; simp at ht

/-- All tokens of the page body are safe. -/
theorem bodyToks_safe (results : List Item) (e : Option String) (ts : List Tok)
    (h : bodyToks results e = .ok ts) : ∀ t ∈ ts, tokSafe t := by
  unfold bodyToks at h
  by_cases hre : results.isEmpty = true
  · rw [if_pos hre] at h
    cases h
    intro t ht
    rcases List.mem_append.mp ht with h | h
    · exact bannerToks_safe e t h
    · rw [List.mem_singleton] at h; subst h; exact trivial
  · rw [if_neg hre] at h
    cases hcs : cardsToks results with
    | error er => rw [hcs] at h; cases h
    | ok cs =>
      rw [hcs] at h
      cases h
      intro t ht
      rcases List.mem_append.mp ht with h | h
      · rcases List.mem_append.mp h with h | h
        · rcases List.mem_append.mp h with h | h
          · exact bannerToks_safe e t h
          · rw [List.mem_singleton] at h; subst h; exact trivial
        · exact cardsToks_safe results cs hcs t h
      · rw [List.mem_singleton] at h; subst h; exact trivial

/-- C5: the rendered page is exactly the concatenation of its tokens, and
every token that carries externally-sourced text (the escaped query, error,
title, asin, price, link, image URL and domain, and the formatted rating
numbers) contributes no unescaped `<`, `>` or `"` to the output — markup
characters can only come from the fixed template literals. -/
theorem c5_external_text_escaped (domain query : String) (results : List Item)
    (error : Option String) (toks : List Tok)
    (h : renderToks domain query results error = .ok toks) :
    renderHtml domain query results error = .ok (String.join (toks.map tokStr)) ∧
    ∀ t ∈ toks, tokSafe t := by
  constructor
  · unfold renderHtml
    rw [h]
  · unfold renderToks at h
    cases hb : bodyToks results error with
    | error e => rw [hb] at h; cases h
    | ok b =>
      rw [hb] at h
      cases h
      intro t ht
      rcases List.mem_append.mp ht with h1 | h1
      · rcases List.mem_append.mp h1 with h2 | h2
        · simp only [List.mem_cons, List.not_mem_nil, or_false] at h2
          rcases h2 with rfl | rfl | rfl
          · exact trivial
          · exact tokSafe_esc query
          · exact trivial
        · exact bodyToks_safe results error b hb t h2
      · simp only [List.mem_cons, List.not_mem_nil, or_false] at h1
        rcases h1 with rfl | rfl | rfl
        · exact trivial
        · exact tokSafe_esc domain
        · exact trivial

/-- Witness for C5 on markup-bearing query, error and result fields. -/
theorem c5_external_text_escaped_witness :
    renderHtml "amazon.com" "<q>" [evilItem] (some "<err>") =
      .ok (String.join (c5Toks.map tokStr)) :=
  (c5_external_text_escaped "amazon.com" "<q>" [evilItem] (some "<err>") c5Toks rfl).1

/-- A template literal occurring in the rating segment is one of its three
fixed fragments, and the segment is non-empty only when the isinstance guard
holds. -/
theorem ratingToks_lit (a b : JVal) (u : String) (hu : Tok.lit u ∈ ratingToks a b) :
    (pyIsNum a && pyIsInt b) = true ∧ (u = ratingOpen ∨ u = ratingMid ∨ u = ratingClose) := by
  unfold ratingToks at hu
  by_cases hc : (pyIsNum a && pyIsInt b) = true
  · rw [if_pos hc] at hu
    refine ⟨hc, ?_⟩
    simp only [List.mem_cons, List.not_mem_nil, or_false] at hu
    rcases hu with h | h | h | h | h
    · injection h with h2; exact Or.inl h2
    · exact Tok.noConfusion h
    · injection h with h2; exact Or.inr (Or.inl h2)
    · exact Tok.noConfusion h
    · injection h with h2; exact Or.inr (Or.inr h2)
  · rw [if_neg hc] at hu; simp at hu

/-- When the isinstance guard holds the rating segment opens with its star
fragment. -/
theorem ratingToks_has_open (a b : JVal) (hc : (pyIsNum a && pyIsInt b) = true) :
    Tok.lit ratingOpen ∈ ratingToks a b := by
  unfold ratingToks
  rw [if_pos hc]
  exact List.mem_cons_self _ _

/-- A template literal occurring in `img_html` is one of its four fixed
fragments. -/
theorem imgToks_lit (image : JVal) (title : String) (ts : List Tok)
    (h : imgToks image title = .ok ts) (u : String) (hu : Tok.lit u ∈ ts) :
    u = imgOpen ∨ u = imgMid ∨ u = imgClose ∨ u = imgPlaceholder := by
  unfold imgToks at h
  by_cases htr : pyTruthy image = true
  · rw [if_pos htr] at h
    cases himg : escVal image with
    | error e => rw [himg] at h; cases h
    | ok s =>
      rw [himg] at h
      cases h
      simp only [List.mem_cons, List.not_mem_nil, or_false] at hu
      rcases hu with h | h | h | h | h
      · injection h with h2; exact Or.inl h2
      · exact Tok.noConfusion h
      · injection h with h2; exact Or.inr (Or.inl h2)
      · exact Tok.noConfusion h
      · injection h with h2; exact Or.inr (Or.inr (Or.inl h2))
  · rw [if_neg htr] at h
    cases h
    rw [List.mem_singleton] at hu
    injection hu with h2
    exact Or.inr (Or.inr (Or.inr h2))

/-- A template literal occurring in a card is one of the card's fixed
fragments, one of `img_html`'s, or one of the rating segment's. -/
theorem cardToks_lit (r : Item) (ts : List Tok) (h : cardToks r = .ok ts)
    (u : String) (hu : Tok.lit u ∈ ts) :
    u = cardPre ∨ u = cardA ∨ u = cardB ∨ u = cardC ∨ u = cardD ∨ u = cardE ∨ u = cardF ∨
    u = imgOpen ∨ u = imgMid ∨ u = imgClose ∨ u = imgPlaceholder ∨
    Tok.lit u ∈ ratingToks r.rating r.ratings_total := by
  unfold cardToks at h
  cases hi : imgToks (pyOrV r.image (.str "")) (pyStr r.title) with
  | error e => rw [hi] at h; cases h
  | ok ih =>
    rw [hi] at h
    cases hl : escVal (pyOrV r.link (.str "#")) with
    | error e => rw [hl] at h; cases h
    | ok linkS =>
      rw [hl] at h
      cases h
      simp only [List.mem_append] at hu
      rcases hu with (((h | h) | h) | h) | h
      · simp only [List.mem_cons, List.not_mem_nil, or_false] at h
        rcases h with h | h | h
        · injection h with h2; exact Or.inl h2
        · exact Tok.noConfusion h
        · injection h with h2; exact Or.inr (Or.inl h2)
      · rcases imgToks_lit _ _ _ hi u h with h2 | h2 | h2 | h2
        · exact Or.inr (Or.inr (Or.inr (Or.inr (Or.inr (Or.inr (Or.inr (Or.inl h2)))))))
        · exact Or.inr (Or.inr (Or.inr (Or.inr (Or.inr (Or.inr (Or.inr (Or.inr (Or.inl h2))))))))
        · exact Or.inr (Or.inr (Or.inr (Or.inr (Or.inr (Or.inr (Or.inr (Or.inr (Or.inr (Or.inl h2)))))))))
        · exact Or.inr (Or.inr (Or.inr (Or.inr (Or.inr (Or.inr (Or.inr (Or.inr (Or.inr (Or.inr (Or.inl h2))))))))))
      · simp only [List.mem_cons, List.not_mem_nil, or_false] at h
        rcases h with h | h | h | h | h | h | h
        · injection h with h2; exact Or.inr (Or.inr (Or.inl h2))
        · exact Tok.noConfusion h
        · injection h with h2; exact Or.inr (Or.inr (Or.inr (Or.inl h2)))
        · exact Tok.noConfusion h
        · injection h with h2; exact Or.inr (Or.inr (Or.inr (Or.inr (Or.inl h2))))
        · exact Tok.noConfusion h
        · injection h with h2; exact Or.inr (Or.inr (Or.inr (Or.inr (Or.inr (Or.inl h2)))))
      · exact Or.inr (Or.inr (Or.inr (Or.inr (Or.inr (Or.inr (Or.inr (Or.inr (Or.inr (Or.inr (Or.inr h))))))))))
      · rw [List.mem_singleton] at h
        injection h with h2
        exact Or.inr (Or.inr (Or.inr (Or.inr (Or.inr (Or.inr (Or.inl h2))))))

/-- A template literal occurring in the card loop's output occurs in one of
the cards. -/
theorem cardsToks_lit : ∀ (rs : List Item) (ts : List Tok), cardsToks rs = .ok ts →
    ∀ u, Tok.lit u ∈ ts → ∃ r ∈ rs, ∃ cs, cardToks r = .ok cs ∧ Tok.lit u ∈ cs := by
  intro rs
  induction rs with
  | nil =>
    intro ts h u hu
    simp only [cardsToks] at h
    cases h
    simp at hu
  | cons r rt ih =>
    intro ts h u hu
    simp only [cardsToks] at h
    cases hc : cardToks r with
    | error e => rw [hc] at h; cases h
    | ok c =>
      rw [hc] at h
      cases hcs : cardsToks rt with
      | error e => rw [hcs] at h; cases h
      | ok rest =>
        rw [hcs] at h
        cases h
        rcases List.mem_append.mp hu with h1 | h1
        · exact ⟨r, List.mem_cons_self _ _, c, hc, h1⟩
        · rcases ih rest hcs u h1 with ⟨r2, hr2, cs, hc2, hm2⟩
          exact ⟨r2, List.mem_cons_of_mem _ hr2, cs, hc2, hm2⟩

/-- The "no results" notice never comes from the error banner. -/
theorem bannerToks_no_notice (e : Option String) : Tok.lit noticeLit ∉ bannerToks e := by
  intro hm
  cases e with
  | none => simp [bannerToks] at hm
  | some s =>
    simp only [bannerToks] at hm
    by_cases hs : (s != "") = true
    · rw [if_pos hs] at hm
      simp only [List.mem_cons, List.not_mem_nil, or_false] at hm
      rcases hm with h | h | h
      · injection h with h2; exact absurd h2 (by decide)
      · exact Tok.noConfusion h
      · injection h with h2; exact absurd h2 (by decide)
    · rw [if_neg hs] at hm; simp at hm

/-- The "no results" notice never comes from a card. -/
theorem cardsToks_no_notice (rs : List Item) (ts : List Tok) (h : cardsToks rs = .ok ts) :
    Tok.lit noticeLit ∉ ts := by
  intro hm
  rcases cardsToks_lit rs ts h noticeLit hm with ⟨r, _, cs, hc, hmc⟩
  rcases cardToks_lit r cs hc noticeLit hmc with
    h1 | h1 | h1 | h1 | h1 | h1 | h1 | h1 | h1 | h1 | h1 | h1
  · exact absurd h1 (by decide)
  · exact absurd h1 (by decide)
  · exact absurd h1 (by decide)
  · exact absurd h1 (by decide)
  · exact absurd h1 (by decide)
  · exact absurd h1 (by decide)
  · exact absurd h1 (by decide)
  · exact absurd h1 (by decide)
  · exact absurd h1 (by decide)
  · exact absurd h1 (by decide)
  · exact absurd h1 (by decide)
  · rcases (ratingToks_lit _ _ _ h1).2 with h2 | h2 | h2 <;> exact absurd h2 (by decide)

/-- Counterexample to C6 as stated: with an empty result list and a
non-null error, the rendered page contains both the error banner and the
"no results" notice — the notice is not restricted to the no-error case. -/
theorem c6_notice_shown_with_error :
    Tok.lit noticeLit ∈ toksOf "amazon.com" "q" [] (some "boom") ∧
    (some "boom" : Option String) ≠ none :=
  ⟨by decide, by decide⟩

/-- C6 (amended): the rendered document contains the "no results" notice if
and only if the result list is empty, regardless of the error — when an
error accompanies an empty result list, the banner and the notice are both
shown. -/
theorem c6_notice_iff_empty (domain query : String) (results : List Item)
    (error : Option String) (toks : List Tok)
    (h : renderToks domain query results error = .ok toks) :
    Tok.lit noticeLit ∈ toks ↔ results = [] := by
  unfold renderToks at h
  cases hb : bodyToks results error with
  | error e => rw [hb] at h; cases h
  | ok b =>
    rw [hb] at h
    cases h
    constructor
    · intro hm
      rcases List.mem_append.mp hm with h1 | h1
      · rcases List.mem_append.mp h1 with h2 | h2
        · simp only [List.mem_cons, List.not_mem_nil, or_false] at h2
          rcases h2 with h3 | h3 | h3
          · injection h3 with h4; exact absurd h4 (by decide)
          · exact Tok.noConfusion h3
          · injection h3 with h4; exact absurd h4 (by decide)
        · unfold bodyToks at hb
          by_cases hre : results.isEmpty = true
          · exact List.isEmpty_iff.mp hre
          · rw [if_neg hre] at hb
            cases hcs : cardsToks results with
            | error e2 => rw [hcs] at hb; cases hb
            | ok cs =>
              rw [hcs] at hb
              cases hb
              exfalso
              rcases List.mem_append.mp h2 with h3 | h3
              · rcases List.mem_append.mp h3 with h4 | h4
                · rcases List.mem_append.mp h4 with h5 | h5
                  · exact bannerToks_no_notice error h5
                  · rw [List.mem_singleton] at h5
                    injection h5 with h6
                    exact absurd h6 (by decide)
                · exact cardsToks_no_notice results cs hcs h4
              · rw [List.mem_singleton] at h3
                injection h3 with h6
                exact absurd h6 (by decide)
      · simp only [List.mem_cons, List.not_mem_nil, or_false] at h1
        rcases h1 with h3 | h3 | h3
        · injection h3 with h4; exact absurd h4 (by decide)
        · exact Tok.noConfusion h3
        · injection h3 with h4; exact absurd h4 (by decide)
    · intro hre
      subst hre
      unfold bodyToks at hb
      split at hb
      · cases hb
        exact List.mem_append.mpr (Or.inl (List.mem_append.mpr (Or.inr
          (List.mem_append.mpr (Or.inr (List.mem_singleton.mpr rfl))))))
      · exact absurd rfl (by assumption)

/-- Witness for C6's amended statement: empty results with no error show
the notice. -/
theorem c6_notice_iff_empty_witness :
    Tok.lit noticeLit ∈ toksOf "amazon.com" "q" [] none :=
  (c6_notice_iff_empty "amazon.com" "q" [] none (toksOf "amazon.com" "q" [] none) rfl).mpr rfl

/-- C9: a card's markup contains the rating segment (opened by its star
fragment) exactly when `isinstance(rating, (int, float))` and
`isinstance(ratings_total, int)` both hold (Python booleans being ints); in
every other case — value absent (hence `None`), JSON null, strings, lists,
objects, or a float ratings count — the segment is omitted entirely. -/
theorem c9_rating_segment_iff (r : Item) (ts : List Tok) (h : cardToks r = .ok ts) :
    Tok.lit ratingOpen ∈ ts ↔
      pyIsNum r.rating = true ∧ pyIsInt r.ratings_total = true := by
  constructor
  · intro hm
    rcases cardToks_lit r ts h ratingOpen hm with
      h1 | h1 | h1 | h1 | h1 | h1 | h1 | h1 | h1 | h1 | h1 | h1
    · exact absurd h1 (by decide)
    · exact absurd h1 (by decide)
    · exact absurd h1 (by decide)
    · exact absurd h1 (by decide)
    · exact absurd h1 (by decide)
    · exact absurd h1 (by decide)
    · exact absurd h1 (by decide)
    · exact absurd h1 (by decide)
    · exact absurd h1 (by decide)
    · exact absurd h1 (by decide)
    · exact absurd h1 (by decide)
    · have h2 := (ratingToks_lit _ _ _ h1).1
      rw [Bool.and_eq_true] at h2
      exact h2
  · rintro ⟨hn, hint⟩
    unfold cardToks at h
    cases hi : imgToks (pyOrV r.image (.str "")) (pyStr r.title) with
    | error e => rw [hi] at h; cases h
    | ok ih =>
      rw [hi] at h
      cases hl : escVal (pyOrV r.link (.str "#")) with
      | error e => rw [hl] at h; cases h
      | ok linkS =>
        rw [hl] at h
        cases h
        have hopen := ratingToks_has_open r.rating r.ratings_total
          (by rw [Bool.and_eq_true]; exact ⟨hn, hint⟩)
        exact List.mem_append.mpr (Or.inl (List.mem_append.mpr (Or.inr hopen)))

/-- Witness for C9: a float rating with an int count shows the segment. -/
theorem c9_rating_segment_iff_witness :
    Tok.lit ratingOpen ∈ c9Ts :=
  (c9_rating_segment_iff ratedItem c9Ts rfl).mpr ⟨rfl, rfl⟩

end Rainforest
